import Mathlib

/-!
Verification development for a restaurant table-reservation manager
(Python sources: src/models/users.py, src/models/tables.py,
src/models/booking.py, src/backend.py).

Modelling conventions of the shallow embedding:
- Python dates are modelled as an integer day number; Python time-of-day
  values and float durations are modelled as rationals measured in hours.
  `datetime.combine(d, t)` is modelled as the rational `24*d + t`, which
  is order-isomorphic to Python datetimes for in-range times; all
  comparisons performed by the code happen between datetimes on the same
  day, where the correspondence is exact.
- Fallible Python code is modelled in the `Option` monad: `none` stands
  for a raised exception, or for a value falling outside the declared
  field types of the dataclass (Python would store the ill-typed value;
  no claim depends on such inputs).
- Dictionaries passed to `from_dict` are modelled as structures whose
  fields are `Option PyVal`: `none` means the key is absent, and
  `some v` means the key is present with value `v`. `dict.get` with a
  default is `Option.getD`.
- `isoformat` and `fromisoformat` of the Python standard library are
  modelled by dedicated string-valued constructors of `PyVal`
  (`vdateStr`, `vtimeStr`, `vdatetimeStr`), so that a string holding the
  ISO form of a date is distinguished from other strings, and
  `fromisoformat` inverts `isoformat` exactly (a property of the
  standard library, not of this repository).
- The database is modelled as in-memory lists of well-typed rows; SQL
  SELECT with WHERE and ORDER BY becomes `List.filter` followed by
  `List.insertionSort`, and row deserialisation of a well-typed row is
  the identity.
-/

namespace Resto

/-- Booking statuses, from BookingStatus in src/models/booking.py. -/
inductive BookingStatus where
  | PENDING
  | CONFIRMED
  | CANCELLED
  | COMPLETED
deriving DecidableEq

/-- The string value attached to each enum member (PENDING = "pending", etc.). -/
def BookingStatus.value : BookingStatus → String
  | .PENDING => "pending"
  | .CONFIRMED => "confirmed"
  | .CANCELLED => "cancelled"
  | .COMPLETED => "completed"

/-- The User dataclass of src/models/users.py. `created_at` is a datetime,
modelled as rational hours since the epoch. -/
structure User where
  id : Option Int := none
  name : String := ""
  phone : String := ""
  created_at : Option ℚ := none
deriving DecidableEq

/-- Python str.strip(): drop leading and trailing whitespace. Written over
the character list so that it evaluates by kernel reduction. -/
def pyStrip (s : String) : String :=
  String.mk (((s.data.dropWhile Char.isWhitespace).reverse.dropWhile
    Char.isWhitespace).reverse)

/-- User.is_valid: name and phone are non-blank after stripping whitespace. -/
def User.is_valid (u : User) : Bool :=
  decide (pyStrip u.name ≠ "") && decide (pyStrip u.phone ≠ "")

/-- The Table dataclass of src/models/tables.py. -/
structure Table where
  id : Option Int := none
  number : Int := 0
  capacity : Int := 0
  location : String := ""
  is_active : Bool := true
  created_at : Option ℚ := none
deriving DecidableEq

/-- Table.is_valid. -/
def Table.is_valid (t : Table) : Bool :=
  decide (0 < t.number) && decide (0 < t.capacity) && decide (pyStrip t.location ≠ "")

/-- Table.can_accommodate: the table is active and the guests fit. -/
def Table.can_accommodate (t : Table) (guests_count : Int) : Bool :=
  t.is_active && decide (guests_count ≤ t.capacity)

/-- The Booking dataclass of src/models/booking.py. `booking_date` is a day
number, `booking_time` rational hours within the day, `duration_hours` a
rational (modelling the Python float). `user` and `table` are the optional
attached related objects; they are never serialized. -/
structure Booking where
  id : Option Int := none
  user_id : Int := 0
  table_id : Int := 0
  booking_date : Option Int := none
  booking_time : Option ℚ := none
  duration_hours : ℚ := 2
  guests_count : Int := 0
  status : BookingStatus := .PENDING
  special_requests : String := ""
  created_at : Option ℚ := none
  updated_at : Option ℚ := none
  user : Option User := none
  table : Option Table := none
deriving DecidableEq

/-- Booking.is_valid. -/
def Booking.is_valid (b : Booking) : Bool :=
  decide (0 < b.user_id) && decide (0 < b.table_id) && b.booking_date.isSome &&
  b.booking_time.isSome && decide (0 < b.duration_hours) && decide (0 < b.guests_count)

/-- Booking.is_active: status is PENDING or CONFIRMED. -/
def Booking.is_active (b : Booking) : Bool :=
  b.status == .PENDING || b.status == .CONFIRMED

/-- Booking.can_be_cancelled: status is PENDING or CONFIRMED. -/
def Booking.can_be_cancelled (b : Booking) : Bool :=
  b.status == .PENDING || b.status == .CONFIRMED

/-- Rational addition computed through `mkRat`, so that the kernel can
evaluate it on concrete inputs (the library addition on `ℚ` is marked
irreducible); proved equal to `+` in `qAdd_eq`. -/
def qAdd (a b : ℚ) : ℚ := mkRat (a.num * b.den + b.num * a.den) (a.den * b.den)

theorem qAdd_eq (a b : ℚ) : qAdd a b = a + b := by
  rw [Rat.add_def']
  simp [qAdd, Rat.mkRat_eq_div]

/-- Value of datetime.combine(d, t) on the rational time line, in hours. -/
def dtVal (d : Int) (t : ℚ) : ℚ := qAdd ((24 * d : Int) : ℚ) t

theorem dtVal_eq (d : Int) (t : ℚ) : dtVal d t = 24 * d + t := by
  simp [dtVal, qAdd_eq]

/-- Effective duration used by the code: `float(duration_hours) if
duration_hours else 2.0`, i.e. a falsy (zero) duration is replaced by 2. -/
def effDuration (q : ℚ) : ℚ := if q = 0 then 2 else q

/-- Booking.get_end_time: start plus effective duration when date and time
are set, None otherwise. -/
def Booking.get_end_time (b : Booking) : Option ℚ :=
  match b.booking_date, b.booking_time with
  | some d, some t => some (qAdd (dtVal d t) (effDuration b.duration_hours))
  | _, _ => none

/-- Booking.is_conflicting_with. Returns `some r` when the Python call
returns the boolean `r`, and `none` when it raises (datetime.combine with a
missing date or time). The interval test is the literal
`not (self_end <= other_start or other_end <= self_start)` of the source,
with durations passed through `effDuration`. -/
def Booking.is_conflicting_with (b other : Booking) : Option Bool :=
  if b.table_id ≠ other.table_id ∨ b.is_active = false ∨ other.is_active = false then
    some false
  else if b.booking_date ≠ other.booking_date then
    some false
  else
    match b.booking_date, b.booking_time, other.booking_date, other.booking_time with
    | some d1, some t1, some d2, some t2 =>
      let s1 := dtVal d1 t1
      let e1 := qAdd s1 (effDuration b.duration_hours)
      let s2 := dtVal d2 t2
      let e2 := qAdd s2 (effDuration other.duration_hours)
      some (!(decide (e1 ≤ s2) || decide (e2 ≤ s1)))
    | _, _, _, _ => none

/-- Python values that may appear in a serialization dictionary. The three
`...Str` constructors stand for strings produced by `isoformat` (so they
satisfy the `isinstance(x, str)` test), carrying the denoted date, time or
datetime; `vstr` stands for every other string. -/
inductive PyVal where
  | vnone
  | vint (i : Int)
  | vrat (q : ℚ)
  | vstr (s : String)
  | vbool (b : Bool)
  | vdate (d : Int)
  | vtime (t : ℚ)
  | vdatetime (dt : ℚ)
  | vdateStr (d : Int)
  | vtimeStr (t : ℚ)
  | vdatetimeStr (dt : ℚ)
deriving DecidableEq

/-- Python truthiness of a value. ISO-format strings are never empty, and
date, time and datetime objects are always truthy. -/
def PyVal.truthy : PyVal → Bool
  | .vnone => false
  | .vint i => decide (i ≠ 0)
  | .vrat q => decide (q ≠ 0)
  | .vstr s => decide (s ≠ "")
  | .vbool b => b
  | _ => true

/-- isinstance(x, str). -/
def PyVal.isStr : PyVal → Bool
  | .vstr _ => true
  | .vdateStr _ => true
  | .vtimeStr _ => true
  | .vdatetimeStr _ => true
  | _ => false

/-- Serialize an optional int field (or None). -/
def serOptInt : Option Int → PyVal
  | some i => .vint i
  | none => .vnone

/-- Serialize an optional date as `isoformat` string (or None). -/
def serOptDate : Option Int → PyVal
  | some d => .vdateStr d
  | none => .vnone

/-- Serialize an optional time as `isoformat` string (or None). -/
def serOptTime : Option ℚ → PyVal
  | some t => .vtimeStr t
  | none => .vnone

/-- Serialize an optional datetime as `isoformat` string (or None). -/
def serOptDatetime : Option ℚ → PyVal
  | some dt => .vdatetimeStr dt
  | none => .vnone

/-- Read a field used directly as an optional int (`data.get(k)`). `none` in
the outer layer models a value outside the declared field type. -/
def parseOptInt : Option PyVal → Option (Option Int)
  | none => some none
  | some .vnone => some none
  | some (.vint i) => some (some i)
  | some _ => none

/-- Read an int field with a default (`data.get(k, d)`). -/
def parseIntD : Option PyVal → Int → Option Int
  | none, d => some d
  | some (.vint i), _ => some i
  | some _, _ => none

/-- Read a numeric field with a default; Python accepts ints where floats
are expected. -/
def parseRatD : Option PyVal → ℚ → Option ℚ
  | none, d => some d
  | some (.vint i), _ => some (i : ℚ)
  | some (.vrat q), _ => some q
  | some _, _ => none

/-- Read a string field with a default. -/
def parseStrD : Option PyVal → String → Option String
  | none, d => some d
  | some (.vstr s), _ => some s
  | some _, _ => none

/-- Read a bool field with a default. -/
def parseBoolD : Option PyVal → Bool → Option Bool
  | none, d => some d
  | some (.vbool b), _ => some b
  | some _, _ => none

/-- Read an optional date field the way `from_dict` does: keep None for a
missing or falsy value, run `date.fromisoformat` on strings (failure on a
non-date string models the uncaught ValueError), take date objects as-is. -/
def parseDateField : Option PyVal → Option (Option Int)
  | none => some none
  | some pv =>
    if pv.truthy = false then some none
    else if pv.isStr then
      match pv with
      | .vdateStr d => some (some d)
      | _ => none
    else
      match pv with
      | .vdate d => some (some d)
      | _ => none

/-- Read an optional time field; mirrors `parseDateField` with
`time.fromisoformat`. -/
def parseTimeField : Option PyVal → Option (Option ℚ)
  | none => some none
  | some pv =>
    if pv.truthy = false then some none
    else if pv.isStr then
      match pv with
      | .vtimeStr t => some (some t)
      | _ => none
    else
      match pv with
      | .vtime t => some (some t)
      | _ => none

/-- Read an optional datetime field; `datetime.fromisoformat` also accepts a
plain date string, denoting midnight of that day. -/
def parseDatetimeField : Option PyVal → Option (Option ℚ)
  | none => some none
  | some pv =>
    if pv.truthy = false then some none
    else if pv.isStr then
      match pv with
      | .vdatetimeStr dt => some (some dt)
      | .vdateStr d => some (some (24 * d))
      | _ => none
    else
      match pv with
      | .vdatetime dt => some (some dt)
      | _ => none

/-- The partial inverse of `BookingStatus.value`, i.e. the
`BookingStatus(s)` enum lookup; `none` models the ValueError. -/
def statusOfString (s : String) : Option BookingStatus :=
  if s = "pending" then some .PENDING
  else if s = "confirmed" then some .CONFIRMED
  else if s = "cancelled" then some .CANCELLED
  else if s = "completed" then some .COMPLETED
  else none

/-- Status handling of Booking.from_dict: default PENDING when the key is
missing or falsy, and fall back to PENDING when the enum lookup raises. -/
def parseStatus : Option PyVal → BookingStatus
  | none => .PENDING
  | some pv =>
    if pv.truthy = false then .PENDING
    else
      match pv with
      | .vstr s => (statusOfString s).getD .PENDING
      | _ => .PENDING

/-- A dictionary argument of Booking.from_dict: `none` = key absent. -/
structure BookingDict where
  id : Option PyVal := none
  user_id : Option PyVal := none
  table_id : Option PyVal := none
  booking_date : Option PyVal := none
  booking_time : Option PyVal := none
  duration_hours : Option PyVal := none
  guests_count : Option PyVal := none
  status : Option PyVal := none
  special_requests : Option PyVal := none
  created_at : Option PyVal := none
  updated_at : Option PyVal := none
deriving DecidableEq

/-- Booking.to_dict. Every key is present; optional fields serialize to
None when unset. The attached `user` and `table` objects are not written. -/
def Booking.to_dict (b : Booking) : BookingDict where
  id := some (serOptInt b.id)
  user_id := some (.vint b.user_id)
  table_id := some (.vint b.table_id)
  booking_date := some (serOptDate b.booking_date)
  booking_time := some (serOptTime b.booking_time)
  duration_hours := some (.vrat b.duration_hours)
  guests_count := some (.vint b.guests_count)
  status := some (.vstr b.status.value)
  special_requests := some (.vstr b.special_requests)
  created_at := some (serOptDatetime b.created_at)
  updated_at := some (serOptDatetime b.updated_at)

/-- Booking.from_dict followed by `__post_init__`: a missing created_at or
updated_at is replaced by the current time `now`. Returns `none` when the
Python code raises or a field value falls outside its declared type. -/
def Booking.from_dict (now : ℚ) (data : BookingDict) : Option Booking :=
  match parseDateField data.booking_date, parseTimeField data.booking_time,
      parseDatetimeField data.created_at, parseDatetimeField data.updated_at,
      parseOptInt data.id, parseIntD data.user_id 0, parseIntD data.table_id 0,
      parseRatD data.duration_hours 2, parseIntD data.guests_count 0,
      parseStrD data.special_requests "" with
  | some bdate, some btime, some cat, some uat, some id, some uid, some tid,
    some dur, some gc, some sreq =>
    some { id := id, user_id := uid, table_id := tid, booking_date := bdate,
           booking_time := btime, duration_hours := dur, guests_count := gc,
           status := parseStatus data.status, special_requests := sreq,
           created_at := some (cat.getD now), updated_at := some (uat.getD now),
           user := none, table := none }
  | _, _, _, _, _, _, _, _, _, _ => none

/-- A dictionary argument of User.from_dict. -/
structure UserDict where
  id : Option PyVal := none
  name : Option PyVal := none
  phone : Option PyVal := none
  created_at : Option PyVal := none
deriving DecidableEq

/-- User.to_dict. -/
def User.to_dict (u : User) : UserDict where
  id := some (serOptInt u.id)
  name := some (.vstr u.name)
  phone := some (.vstr u.phone)
  created_at := some (serOptDatetime u.created_at)

/-- User.from_dict followed by `__post_init__`. -/
def User.from_dict (now : ℚ) (data : UserDict) : Option User :=
  match parseDatetimeField data.created_at, parseOptInt data.id,
      parseStrD data.name "", parseStrD data.phone "" with
  | some cat, some id, some name, some phone =>
    some { id := id, name := name, phone := phone, created_at := some (cat.getD now) }
  | _, _, _, _ => none

/-- A dictionary argument of Table.from_dict. -/
structure TableDict where
  id : Option PyVal := none
  number : Option PyVal := none
  capacity : Option PyVal := none
  location : Option PyVal := none
  is_active : Option PyVal := none
  created_at : Option PyVal := none
deriving DecidableEq

/-- Table.to_dict. -/
def Table.to_dict (t : Table) : TableDict where
  id := some (serOptInt t.id)
  number := some (.vint t.number)
  capacity := some (.vint t.capacity)
  location := some (.vstr t.location)
  is_active := some (.vbool t.is_active)
  created_at := some (serOptDatetime t.created_at)

/-- Table.from_dict followed by `__post_init__`. -/
def Table.from_dict (now : ℚ) (data : TableDict) : Option Table :=
  match parseDatetimeField data.created_at, parseOptInt data.id,
      parseIntD data.number 0, parseIntD data.capacity 0,
      parseStrD data.location "", parseBoolD data.is_active true with
  | some cat, some id, some number, some capacity, some location, some active =>
    some { id := id, number := number, capacity := capacity, location := location,
           is_active := active, created_at := some (cat.getD now) }
  | _, _, _, _, _, _ => none

/-- State of BookingBackend (src/backend.py): the connection flag and the
three database tables as lists of well-typed rows. -/
structure Backend where
  connected : Bool := true
  users : List User := []
  tables : List Table := []
  bookings : List Booking := []
deriving DecidableEq

/-- BookingBackend.get_user: SELECT * FROM users WHERE id = user_id. -/
def get_user (be : Backend) (user_id : Int) : Option User :=
  if be.connected = false then none
  else be.users.find? fun u => u.id == some user_id

/-- BookingBackend.get_table: SELECT * FROM tables WHERE id = table_id. -/
def get_table (be : Backend) (table_id : Int) : Option Table :=
  if be.connected = false then none
  else be.tables.find? fun t => t.id == some table_id

/-- BookingBackend.get_booking: SELECT * FROM bookings WHERE id = booking_id. -/
def get_booking (be : Backend) (booking_id : Int) : Option Booking :=
  if be.connected = false then none
  else be.bookings.find? fun b => b.id == some booking_id

/-- Sort key of `ORDER BY booking_time`: a NULL time sorts last
(PostgreSQL default ASC NULLS LAST), modelled by the top element. -/
def timeKey (b : Booking) : WithTop ℚ :=
  match b.booking_time with
  | some t => (t : WithTop ℚ)
  | none => ⊤

/-- Row order produced by `ORDER BY booking_time`. -/
def timeLe (a b : Booking) : Prop := timeKey a ≤ timeKey b

instance : DecidableRel timeLe := fun a b =>
  inferInstanceAs (Decidable (timeKey a ≤ timeKey b))

instance : IsTotal Booking timeLe := ⟨fun a b => le_total (timeKey a) (timeKey b)⟩

instance : IsTrans Booking timeLe := ⟨fun _ _ _ h1 h2 => le_trans h1 h2⟩

/-- The SQL filter `status IN ('pending', 'confirmed')`, compared on the
stored status strings. -/
def sqlStatusActive (b : Booking) : Bool :=
  b.status.value == "pending" || b.status.value == "confirmed"

/-- The SELECT of get_conflicting_bookings: bookings of the given table on
the given date whose status is pending or confirmed, ordered by
booking_time ascending. -/
def bookingsQuery (rows : List Booking) (table_id : Int) (d : Int) : List Booking :=
  List.insertionSort timeLe (rows.filter fun b =>
    b.table_id == table_id && b.booking_date == some d && sqlStatusActive b)

/-- The temporary probe booking built by get_conflicting_bookings. -/
def mkTempBooking (table_id : Int) (d : Int) (t dur now : ℚ) : Booking :=
  { table_id := table_id, booking_date := some d, booking_time := some t,
    duration_hours := dur, status := .PENDING,
    created_at := some now, updated_at := some now }

/-- The collection loop of get_conflicting_bookings: keep the rows the probe
conflicts with, in retrieval order; `none` models an exception escaping the
loop. -/
def collectConflicts (temp : Booking) : List Booking → Option (List Booking)
  | [] => some []
  | r :: rs =>
    match temp.is_conflicting_with r with
    | none => none
    | some true => (collectConflicts temp rs).map (r :: ·)
    | some false => collectConflicts temp rs

/-- BookingBackend.get_conflicting_bookings. Any exception inside the
method is caught and turned into the empty list. -/
def get_conflicting_bookings (be : Backend) (table_id : Int) (d : Int)
    (t dur now : ℚ) : List Booking :=
  if be.connected = false then []
  else
    match collectConflicts (mkTempBooking table_id d t dur now)
        (bookingsQuery be.bookings table_id d) with
    | some l => l
    | none => []

/-- Fresh id assigned by the SERIAL column on INSERT. -/
def nextId (rows : List Booking) : Int :=
  (rows.filterMap (fun b => b.id)).foldr max 0 + 1

/-- BookingBackend.create_booking, parametrised by the conflict-check
function it invokes at step 5, so that independence from that check can be
stated. Returns the created booking (or `none` on any failure) together
with the resulting backend state. -/
def create_booking_with
    (conflictsOf : Backend → Int → Int → ℚ → ℚ → ℚ → List Booking)
    (be : Backend) (user_id table_id : Int) (booking_date : Int)
    (booking_time : ℚ) (guests_count : Int) (duration_hours : ℚ)
    (special_requests : String) (now : ℚ) : Option Booking × Backend :=
  if be.connected = false then (none, be)
  else
    match get_user be user_id with
    | none => (none, be)
    | some _ =>
      match get_table be table_id with
      | none => (none, be)
      | some table =>
        if table.can_accommodate guests_count = false then (none, be)
        else if table.is_active = false then (none, be)
        else
          let booking : Booking :=
            { user_id := user_id, table_id := table_id,
              booking_date := some booking_date, booking_time := some booking_time,
              guests_count := guests_count, duration_hours := duration_hours,
              special_requests := special_requests, status := .PENDING,
              created_at := some now, updated_at := some now }
          if booking.is_valid = false then (none, be)
          else if (conflictsOf be table_id booking_date booking_time duration_hours now).isEmpty = false then
            (none, be)
          else
            let inserted := { booking with id := some (nextId be.bookings) }
            (some inserted, { be with bookings := be.bookings ++ [inserted] })

/-- BookingBackend.create_booking proper: the conflict check is
get_conflicting_bookings. -/
def create_booking (be : Backend) (user_id table_id : Int) (booking_date : Int)
    (booking_time : ℚ) (guests_count : Int) (duration_hours : ℚ)
    (special_requests : String) (now : ℚ) : Option Booking × Backend :=
  create_booking_with get_conflicting_bookings be user_id table_id booking_date
    booking_time guests_count duration_hours special_requests now

/-- BookingBackend.update_booking_status: fails when the booking is absent
or when the target status is CANCELLED and the booking cannot be cancelled;
otherwise stores the new status and refreshes updated_at. -/
def update_booking_status (be : Backend) (booking_id : Int)
    (status : BookingStatus) (now : ℚ) : Option Booking × Backend :=
  if be.connected = false then (none, be)
  else
    match get_booking be booking_id with
    | none => (none, be)
    | some current =>
      if current.can_be_cancelled = false && status == .CANCELLED then (none, be)
      else
        let updated := { current with status := status, updated_at := some now }
        (some updated,
         { be with bookings := be.bookings.map fun b =>
             if b.id == some booking_id then updated else b })

/-! Theorems about the conflict predicate. -/

/-- C1 (amended): for two bookings on the same table and same date, both
active, with date and time set and with nonzero duration_hours,
is_conflicting_with returns true iff the half-open intervals
[start, start + duration_hours) overlap, i.e. iff not
(end1 <= start2 or end2 <= start1); in particular a booking whose interval
ends exactly when the other starts does not conflict. -/
theorem conflict_iff_half_open_overlap (a b : Booking) (d : Int) (ta tb : ℚ)
    (htab : a.table_id = b.table_id)
    (hda : a.booking_date = some d) (hdb : b.booking_date = some d)
    (hta : a.booking_time = some ta) (htb : b.booking_time = some tb)
    (haA : a.is_active = true) (hbA : b.is_active = true)
    (hdurA : a.duration_hours ≠ 0) (hdurB : b.duration_hours ≠ 0) :
    a.is_conflicting_with b =
      some (decide (¬ (dtVal d ta + a.duration_hours ≤ dtVal d tb ∨
                       dtVal d tb + b.duration_hours ≤ dtVal d ta))) := by
  simp only [Booking.is_conflicting_with, htab, hda, hdb, hta, htb, haA, hbA]
  simp only [ne_eq, not_true_eq_false, false_or, or_self, if_false, if_neg,
    Bool.true_eq_false, or_false, ite_false]
  simp [effDuration, hdurA, hdurB, qAdd_eq, decide_not]
  simp only [← decide_not, not_le]

/-- C1 counterexample: two active bookings on the same table and date with
date and time set, where the first has duration_hours = 0. Its half-open
interval [18, 18) is empty, so under the claimed formula end1 <= start2
holds and the bookings do not conflict; the code nevertheless reports a
conflict, because a falsy duration is silently replaced by 2.0 hours. -/
def c1a : Booking :=
  { table_id := 1, booking_date := some 0, booking_time := some 18,
    duration_hours := 0, status := .PENDING }

/-- The second booking of the C1 counterexample: 18:00 for 2 hours. -/
def c1b : Booking :=
  { table_id := 1, booking_date := some 0, booking_time := some 18,
    duration_hours := 2, status := .CONFIRMED }

/-- C1, as frozen, is false: both bookings are active on the same table and
date with times set, the claimed overlap formula is violated
(end1 = start2, a half-open non-overlap), yet is_conflicting_with is true. -/
theorem conflict_zero_duration_cex :
    c1a.is_active = true ∧ c1b.is_active = true ∧
    (dtVal 0 18 + c1a.duration_hours ≤ dtVal 0 18) ∧
    c1a.is_conflicting_with c1b = some true := by
  refine ⟨by decide, by decide, ?_, by decide⟩
  rw [dtVal_eq]
  norm_num [c1a]

/-- A booking at 20:00 for 2 hours, used as the second argument of the C1
witness. -/
def c1c : Booking :=
  { table_id := 1, booking_date := some 0, booking_time := some 20,
    duration_hours := 2, status := .PENDING }

/-- C1 witness: the amended equivalence applied to the concrete pair
18:00-20:00 versus 20:00-22:00. -/
theorem conflict_iff_half_open_overlap_witness :
    c1b.is_conflicting_with c1c =
      some (decide (¬ (dtVal 0 18 + c1b.duration_hours ≤ dtVal 0 20 ∨
                       dtVal 0 20 + c1c.duration_hours ≤ dtVal 0 18))) :=
  conflict_iff_half_open_overlap c1b c1c 0 18 20 rfl rfl rfl rfl rfl rfl rfl
    (by decide) (by decide)

/-- C9: the conflict predicate is symmetric on bookings with date and time
set. -/
theorem conflict_symm (a b : Booking) (da db : Int) (ta tb : ℚ)
    (hda : a.booking_date = some da) (hdb : b.booking_date = some db)
    (hta : a.booking_time = some ta) (htb : b.booking_time = some tb) :
    a.is_conflicting_with b = b.is_conflicting_with a := by
  simp only [Booking.is_conflicting_with, hda, hdb, hta, htb]
  by_cases hT : a.table_id = b.table_id
  · cases hA : a.is_active <;> cases hB : b.is_active <;>
      by_cases hD : da = db <;>
      simp [hT, hD, eq_comm, Bool.and_comm]
  · have hT' : b.table_id ≠ a.table_id := fun h => hT h.symm
    simp [hT, hT']

/-- C9 witness: symmetry applied to the concrete pair of the C1 data. -/
theorem conflict_symm_witness :
    c1a.is_conflicting_with c1b = c1b.is_conflicting_with c1a :=
  conflict_symm c1a c1b 0 0 18 18 rfl rfl rfl rfl

/-- C10: a booking with date and time set whose duration_hours is 0 (the
only falsy float) gets a substituted duration of 2.0 hours: get_end_time
returns start + 2, and conflict checking treats the booking, on either
side, exactly like the same booking with duration_hours = 2. -/
theorem zero_duration_two_hour_window (b : Booking) (d : Int) (t : ℚ)
    (hd : b.booking_date = some d) (ht : b.booking_time = some t)
    (hz : b.duration_hours = 0) :
    b.get_end_time = some (dtVal d t + 2) ∧
    (∀ other : Booking, b.is_conflicting_with other =
      Booking.is_conflicting_with { b with duration_hours := 2 } other) ∧
    (∀ other : Booking, other.is_conflicting_with b =
      other.is_conflicting_with { b with duration_hours := 2 }) := by
  refine ⟨?_, ?_, ?_⟩
  · simp [Booking.get_end_time, hd, ht, effDuration, hz, qAdd_eq]
  · intro other
    simp [Booking.is_conflicting_with, Booking.is_active, effDuration, hz]
  · intro other
    simp [Booking.is_conflicting_with, Booking.is_active, effDuration, hz]

/-- C10 witness: the zero-duration booking of the C1 data occupies
[18, 20). -/
theorem zero_duration_two_hour_window_witness :
    c1a.get_end_time = some (dtVal 0 18 + 2) ∧
    (∀ other : Booking, c1a.is_conflicting_with other =
      Booking.is_conflicting_with { c1a with duration_hours := 2 } other) ∧
    (∀ other : Booking, other.is_conflicting_with c1a =
      other.is_conflicting_with { c1a with duration_hours := 2 }) :=
  zero_duration_two_hour_window c1a 0 18 rfl rfl rfl

/-! Theorems about the backend. -/

theorem collectConflicts_sublist (temp : Booking) :
    ∀ l r, collectConflicts temp l = some r → r.Sublist l := by
  intro l
  induction l with
  | nil =>
    intro r h
    simp only [collectConflicts, Option.some.injEq] at h
    simp [← h]
  | cons x xs ih =>
    intro r h
    unfold collectConflicts at h
    cases hc : Booking.is_conflicting_with temp x with
    | none => rw [hc] at h; exact absurd h (by simp)
    | some bv =>
      rw [hc] at h
      cases bv with
      | false => exact List.Sublist.cons x (ih r h)
      | true =>
        cases hr : collectConflicts temp xs with
        | none => rw [hr] at h; exact absurd h (by simp)
        | some rs =>
          rw [hr] at h
          simp only [Option.map_some', Option.some.injEq] at h
          rw [← h]
          exact List.Sublist.cons₂ x (ih rs hr)

theorem get_conflicting_sublist_query (be : Backend) (tid d : Int) (t dur now : ℚ) :
    (get_conflicting_bookings be tid d t dur now).Sublist
      (bookingsQuery be.bookings tid d) := by
  unfold get_conflicting_bookings
  split
  · exact List.nil_sublist _
  · split
    · next l hl => exact collectConflicts_sublist _ _ _ hl
    · exact List.nil_sublist _

/-- C2: a CANCELLED (or COMPLETED) booking never appears in the result of
get_conflicting_bookings, whatever the table, date, time and duration:
every returned booking has status PENDING or CONFIRMED. -/
theorem conflicts_exclude_terminal (be : Backend) (tid d : Int) (t dur now : ℚ)
    (b : Booking) (hb : b ∈ get_conflicting_bookings be tid d t dur now) :
    b.status ≠ BookingStatus.CANCELLED ∧ b.status ≠ BookingStatus.COMPLETED := by
  have hq : b ∈ bookingsQuery be.bookings tid d :=
    (get_conflicting_sublist_query be tid d t dur now).mem hb
  unfold bookingsQuery at hq
  rw [List.mem_insertionSort] at hq
  have hs : sqlStatusActive b = true := (List.mem_filter.mp hq).2 |> fun h => by
    simp only [Bool.and_eq_true] at h
    exact h.2
  cases hst : b.status <;> simp_all [sqlStatusActive, BookingStatus.value]

/-- C2 witness: a concrete store holding one CONFIRMED booking at 18:00 and
one overlapping CANCELLED booking; the conflict query for 18:00-20:00
returns the CONFIRMED one, and the theorem applies to it. -/
def c2active : Booking :=
  { id := some 1, table_id := 1, booking_date := some 0, booking_time := some 18,
    duration_hours := 2, status := .CONFIRMED }

/-- The overlapping CANCELLED booking of the C2 witness store. -/
def c2cancelled : Booking :=
  { id := some 2, table_id := 1, booking_date := some 0, booking_time := some 18,
    duration_hours := 2, status := .CANCELLED }

/-- The C2 witness backend. -/
def c2be : Backend :=
  { connected := true, users := [], tables := [], bookings := [c2active, c2cancelled] }

/-- C2 witness: the conflict query at 18:00 on the witness store returns
the CONFIRMED booking, and the theorem applies to that member. -/
theorem conflicts_exclude_terminal_witness :
    c2active.status ≠ BookingStatus.CANCELLED ∧
    c2active.status ≠ BookingStatus.COMPLETED :=
  conflicts_exclude_terminal c2be 1 0 18 2 0 c2active (by decide)

/-- C8: the list returned by get_conflicting_bookings is ordered by the
existing bookings booking_time ascending (the retrieval order of the
underlying query), for every store contents and every requested slot. -/
theorem conflicts_sorted_by_time (be : Backend) (tid d : Int) (t dur now : ℚ) :
    List.Sorted timeLe (get_conflicting_bookings be tid d t dur now) := by
  have hs : List.Sorted timeLe (bookingsQuery be.bookings tid d) :=
    List.sorted_insertionSort timeLe _
  exact List.Pairwise.sublist (get_conflicting_sublist_query be tid d t dur now) hs

/-- C3: when the referenced user and table exist but the table cannot
accommodate the requested guests (capacity exceeded or table inactive),
create_booking fails and returns the store unchanged, and this is
independent of the conflict-check function: the conflict check is never
invoked and no insert happens. -/
theorem capacity_rejects_before_conflicts
    (f : Backend → Int → Int → ℚ → ℚ → ℚ → List Booking)
    (be : Backend) (uid tid bdate : Int) (btime : ℚ) (guests : Int)
    (dur : ℚ) (sreq : String) (now : ℚ) (u : User) (tbl : Table)
    (hu : get_user be uid = some u) (ht : get_table be tid = some tbl)
    (hcap : tbl.can_accommodate guests = false) :
    create_booking_with f be uid tid bdate btime guests dur sreq now = (none, be) := by
  have hconn : be.connected = true := by
    cases hc : be.connected with
    | true => rfl
    | false => rw [get_user, hc] at hu; exact absurd hu (by simp)
  simp [create_booking_with, hconn, hu, ht, hcap]

/-- C3 witness data: one registered user. -/
def c3user : User := { id := some 1, name := "Bob", phone := "7", created_at := some 0 }

/-- C3 witness data: an active table for two. -/
def c3table : Table :=
  { id := some 1, number := 1, capacity := 2, location := "hall",
    is_active := true, created_at := some 0 }

/-- C3 witness backend. -/
def c3be : Backend :=
  { connected := true, users := [c3user], tables := [c3table], bookings := [] }

/-- C3 witness: five guests at a table for two are rejected with the store
unchanged, for a conflict checker that would report a conflict. -/
theorem capacity_rejects_before_conflicts_witness :
    create_booking_with (fun _ _ _ _ _ _ => [c2active]) c3be 1 1 0 18 5 2 "" 0 =
      (none, c3be) :=
  capacity_rejects_before_conflicts (fun _ _ _ _ _ _ => [c2active]) c3be 1 1 0 18 5
    2 "" 0 c3user c3table (by decide) (by decide) (by decide)

/-- C4 counterexample data: a store whose only booking is COMPLETED. -/
def c4booking : Booking :=
  { id := some 1, user_id := 1, table_id := 1, booking_date := some 0,
    booking_time := some 18, duration_hours := 2, guests_count := 2,
    status := .COMPLETED, created_at := some 0, updated_at := some 0 }

/-- C4 counterexample backend. -/
def c4be : Backend := { connected := true, bookings := [c4booking] }

/-- C4, as frozen, is false: update_booking_status on a COMPLETED booking
with target CONFIRMED succeeds and changes the stored status, because the
code only guards the transition to CANCELLED. -/
theorem terminal_status_change_cex :
    (update_booking_status c4be 1 BookingStatus.CONFIRMED 5).1.isSome = true ∧
    (get_booking (update_booking_status c4be 1 BookingStatus.CONFIRMED 5).2 1).map
      Booking.status = some BookingStatus.CONFIRMED := by
  constructor
  · decide
  · decide

/-- C4 (amended): the only guarded transition out of a terminal (CANCELLED
or COMPLETED) booking is to CANCELLED: update_booking_status with target
CANCELLED fails on such a booking and leaves the store unchanged; other
target statuses are not guarded and can change its status. -/
theorem terminal_rejects_cancel (be : Backend) (bid : Int) (now : ℚ)
    (cur : Booking) (h : get_booking be bid = some cur)
    (hterm : cur.status = BookingStatus.CANCELLED ∨
             cur.status = BookingStatus.COMPLETED) :
    update_booking_status be bid BookingStatus.CANCELLED now = (none, be) := by
  have hconn : be.connected = true := by
    cases hc : be.connected with
    | true => rfl
    | false => rw [get_booking, hc] at h; exact absurd h (by simp)
  have hcbc : cur.can_be_cancelled = false := by
    rcases hterm with h1 | h1 <;> simp [Booking.can_be_cancelled, h1]
  simp [update_booking_status, hconn, h, hcbc]

/-- C4 witness: cancelling the COMPLETED booking of the counterexample
store fails with no state change. -/
theorem terminal_rejects_cancel_witness :
    update_booking_status c4be 1 BookingStatus.CANCELLED 5 = (none, c4be) :=
  terminal_rejects_cancel c4be 1 5 c4booking (by decide) (Or.inr (by decide))

/-- C5: update_booking_status with target CANCELLED succeeds only when the
current status is PENDING or CONFIRMED, and otherwise fails with no state
change; in particular cancelling a COMPLETED booking fails. -/
theorem cancel_only_when_active (be : Backend) (bid : Int) (now : ℚ)
    (cur : Booking) (h : get_booking be bid = some cur) :
    ((update_booking_status be bid BookingStatus.CANCELLED now).1.isSome = true →
      (cur.status = BookingStatus.PENDING ∨ cur.status = BookingStatus.CONFIRMED)) ∧
    (¬ (cur.status = BookingStatus.PENDING ∨ cur.status = BookingStatus.CONFIRMED) →
      update_booking_status be bid BookingStatus.CANCELLED now = (none, be)) := by
  have hconn : be.connected = true := by
    cases hc : be.connected with
    | true => rfl
    | false => rw [get_booking, hc] at h; exact absurd h (by simp)
  by_cases hs : cur.status = BookingStatus.PENDING ∨ cur.status = BookingStatus.CONFIRMED
  · exact ⟨fun _ => hs, fun hn => absurd hs hn⟩
  · have hcbc : cur.can_be_cancelled = false := by
      cases hst : cur.status <;> simp_all [Booking.can_be_cancelled]
    constructor
    · intro hsome
      rw [update_booking_status, hconn] at hsome
      simp [h, hcbc] at hsome
    · intro _
      simp [update_booking_status, hconn, h, hcbc]

/-- C5 witness: the cancellation guard applied to the COMPLETED booking of
the counterexample store. -/
theorem cancel_only_when_active_witness :
    ((update_booking_status c4be 1 BookingStatus.CANCELLED 5).1.isSome = true →
      (c4booking.status = BookingStatus.PENDING ∨
       c4booking.status = BookingStatus.CONFIRMED)) ∧
    (¬ (c4booking.status = BookingStatus.PENDING ∨
        c4booking.status = BookingStatus.CONFIRMED) →
      update_booking_status c4be 1 BookingStatus.CANCELLED 5 = (none, c4be)) :=
  cancel_only_when_active c4be 1 5 c4booking (by decide)

/-! Theorems about serialization. -/

theorem parseOptInt_ser (x : Option Int) : parseOptInt (some (serOptInt x)) = some x := by
  cases x <;> rfl

theorem parseDateField_ser (x : Option Int) :
    parseDateField (some (serOptDate x)) = some x := by
  cases x <;> rfl

theorem parseTimeField_ser (x : Option ℚ) :
    parseTimeField (some (serOptTime x)) = some x := by
  cases x <;> rfl

theorem parseDatetimeField_ser (x : Option ℚ) :
    parseDatetimeField (some (serOptDatetime x)) = some x := by
  cases x <;> rfl

theorem parseStatus_value (s : BookingStatus) :
    parseStatus (some (.vstr s.value)) = s := by
  cases s <;> rfl

theorem booking_from_to_dict (now : ℚ) (b : Booking)
    (hd : b.booking_date.isSome = true) (ht : b.booking_time.isSome = true)
    (hc : b.created_at.isSome = true) (hu : b.updated_at.isSome = true)
    (huser : b.user = none) (htable : b.table = none) :
    Booking.from_dict now b.to_dict = some b := by
  obtain ⟨c, hc⟩ := Option.isSome_iff_exists.mp hc
  obtain ⟨u2, hu2⟩ := Option.isSome_iff_exists.mp hu
  obtain ⟨id, uid, tid, bd, bt, dur, gc, st, sr, ca, ua, us, tb⟩ := b
  simp only at hc hu2 huser htable
  subst hc hu2 huser htable
  simp [Booking.from_dict, Booking.to_dict, parseOptInt_ser, parseDateField_ser,
    parseTimeField_ser, parseDatetimeField_ser, parseStatus_value,
    parseIntD, parseRatD, parseStrD]

theorem user_from_to_dict (now : ℚ) (u : User)
    (hc : u.created_at.isSome = true) :
    User.from_dict now u.to_dict = some u := by
  obtain ⟨c, hc⟩ := Option.isSome_iff_exists.mp hc
  obtain ⟨id, name, phone, ca⟩ := u
  simp only at hc
  subst hc
  simp [User.from_dict, User.to_dict, parseOptInt_ser, parseDatetimeField_ser,
    parseStrD]

theorem table_from_to_dict (now : ℚ) (t : Table)
    (hc : t.created_at.isSome = true) :
    Table.from_dict now t.to_dict = some t := by
  obtain ⟨c, hc⟩ := Option.isSome_iff_exists.mp hc
  obtain ⟨id, number, capacity, location, active, ca⟩ := t
  simp only at hc
  subst hc
  simp [Table.from_dict, Table.to_dict, parseOptInt_ser, parseDatetimeField_ser,
    parseStrD, parseIntD, parseBoolD]

/-- C6 counterexample data: a fully valid booking, with every serialized
field set, that carries an attached user object. -/
def c6booking : Booking :=
  { id := some 3, user_id := 1, table_id := 1, booking_date := some 5,
    booking_time := some 18, duration_hours := 2, guests_count := 4,
    status := .CONFIRMED, special_requests := "window", created_at := some 100,
    updated_at := some 101,
    user := some { id := some 1, name := "Ann", phone := "5", created_at := some 1 } }

/-- C6, as frozen, is false: the counterexample booking is valid and every
serialized field is set, yet from_dict (to_dict x) differs from x, because
to_dict omits the attached user and table objects and from_dict leaves them
None, so the dataclass equality (which compares all fields) fails. -/
theorem roundtrip_cex :
    c6booking.is_valid = true ∧
    c6booking.created_at.isSome = true ∧ c6booking.updated_at.isSome = true ∧
    Booking.from_dict 0 c6booking.to_dict ≠ some c6booking := by
  refine ⟨by decide, by decide, by decide, by decide⟩

/-- C6 (amended): for any valid Booking whose serialized optional fields
are all set and whose unserialized user and table attachments are None, and
for any valid User and Table with created_at set, deserializing the
serialization yields an equal object field-for-field. -/
theorem serialization_roundtrip (now : ℚ) (b : Booking) (u : User) (t : Table)
    (hbv : b.is_valid = true)
    (hbc : b.created_at.isSome = true) (hbu : b.updated_at.isSome = true)
    (hbuser : b.user = none) (hbtable : b.table = none)
    (_huv : u.is_valid = true) (huc : u.created_at.isSome = true)
    (_htv : t.is_valid = true) (htc : t.created_at.isSome = true) :
    Booking.from_dict now b.to_dict = some b ∧
    User.from_dict now u.to_dict = some u ∧
    Table.from_dict now t.to_dict = some t := by
  have hv := hbv
  simp only [Booking.is_valid, Bool.and_eq_true] at hv
  exact ⟨booking_from_to_dict now b hv.1.1.1.2 hv.1.1.2 hbc hbu hbuser hbtable,
    user_from_to_dict now u huc, table_from_to_dict now t htc⟩

/-- C6 witness data: a valid booking with no attachments. -/
def c6plain : Booking :=
  { id := some 3, user_id := 1, table_id := 1, booking_date := some 5,
    booking_time := some 18, duration_hours := 2, guests_count := 4,
    status := .CONFIRMED, special_requests := "window", created_at := some 100,
    updated_at := some 101 }

/-- C6 witness data: a valid user. -/
def c6user : User := { id := some 1, name := "Ann", phone := "5", created_at := some 1 }

/-- C6 witness data: a valid table. -/
def c6table : Table :=
  { id := some 2, number := 4, capacity := 6, location := "terrace",
    is_active := true, created_at := some 2 }

/-- C6 witness: the round trip on concrete valid entities. -/
theorem serialization_roundtrip_witness :
    Booking.from_dict 7 c6plain.to_dict = some c6plain ∧
    User.from_dict 7 c6user.to_dict = some c6user ∧
    Table.from_dict 7 c6table.to_dict = some c6table :=
  serialization_roundtrip 7 c6plain c6user c6table (by decide) (by decide)
    (by decide) (by decide) (by decide) (by decide) (by decide) (by decide)
    (by decide)

/-- C7: whenever Booking.from_dict returns a booking, a missing status key
yields status PENDING, a missing duration_hours key yields duration 2.0,
and a status value that is a string outside the four known statuses falls
back to PENDING instead of raising. -/
theorem from_dict_defaults (now : ℚ) (data : BookingDict) (b : Booking)
    (s : String) (h : Booking.from_dict now data = some b) :
    (data.status = none → b.status = BookingStatus.PENDING) ∧
    (data.duration_hours = none → b.duration_hours = 2) ∧
    (data.status = some (.vstr s) → statusOfString s = none →
      b.status = BookingStatus.PENDING) := by
  unfold Booking.from_dict at h
  split at h
  · rename_i bdate btime cat uat id uid tid dur gc sreq h1 h2 h3 h4 h5 h6 h7 h8 h9 h10
    rw [Option.some.injEq] at h
    subst h
    refine ⟨?_, ?_, ?_⟩
    · intro hst
      simp [parseStatus, hst]
    · intro hdur
      rw [hdur] at h8
      simp only [parseRatD, Option.some.injEq] at h8
      simp [← h8]
    · intro hst hnone
      by_cases hse : s = "" <;>
        simp [parseStatus, hst, hnone, hse, PyVal.truthy]
  · exact absurd h (by simp)

/-- C7 witness data: the empty dictionary (every key absent). -/
def c7dict : BookingDict := {}

/-- C7 witness data: the booking produced from the empty dictionary at
current time 0. -/
def c7booking : Booking := { created_at := some 0, updated_at := some 0 }

/-- C7 witness: the defaults theorem applied to the empty dictionary. -/
theorem from_dict_defaults_witness :
    (c7dict.status = none → c7booking.status = BookingStatus.PENDING) ∧
    (c7dict.duration_hours = none → c7booking.duration_hours = 2) ∧
    (c7dict.status = some (.vstr "unknown") → statusOfString "unknown" = none →
      c7booking.status = BookingStatus.PENDING) :=
  from_dict_defaults 0 c7dict c7booking "unknown" (by decide)

end Resto
